import Mathlib

/-!
Verification development for the YouTube companion dashboard: a shallow
embedding of the serverless proxy (supabase/functions/youtube-api/index.ts),
the browser-side client (src/services/youtube.ts) and the panel state
handlers (NotesSection.tsx, CommentsSection.tsx), with theorems settling the
specification claims about them.
-/

namespace YtDash

/-- JSON values, the currency of every request and response body in the
program.  Object fields keep their insertion order, as JSON.stringify does. -/
inductive Json where
  | null
  | bool (b : Bool)
  | num (n : Int)
  | str (s : String)
  | arr (elems : List Json)
  | obj (fields : List (String × Json))

/-- Property lookup `j[name]`: defined on objects, `undefined` (none)
everywhere else, which is also what the optional-chaining accesses in the
source observe on non-objects. -/
def Json.getField : Json → String → Option Json
  | .obj fields, name => (fields.find? (fun f => f.fst = name)).map (fun f => f.snd)
  | _, _ => none

/-- JavaScript truthiness of a JSON value. -/
def Json.jsTruthy : Json → Bool
  | .null => false
  | .bool b => b
  | .num n => n != 0
  | .str s => !s.isEmpty
  | .arr _ => true
  | .obj _ => true

mutual

/-- Rendering of a JSON value as a JavaScript string, as template literals and
the Error constructor do.  Arrays join their elements with commas (null
elements render empty); plain objects render as the usual object tag. -/
def Json.jsString : Json → String
  | .null => "null"
  | .bool b => cond b "true" "false"
  | .num n => toString n
  | .str s => s
  | .arr elems => Json.jsStringList elems
  | .obj _ => "[object Object]"

/-- Comma-joined rendering of array elements, as Array.prototype.toString. -/
def Json.jsStringList : List Json → String
  | [] => ""
  | [j] => Json.jsStringElem j
  | j :: rest => Json.jsStringElem j ++ "," ++ Json.jsStringList rest

/-- A null element of an array renders as the empty string in a join. -/
def Json.jsStringElem : Json → String
  | .null => ""
  | j => Json.jsString j

end

/-- Template-literal rendering of a possibly-undefined JSON value, as in
the Authorization header interpolation of the proxy. -/
def templateOpt : Option Json → String
  | none => "undefined"
  | some j => j.jsString

/-- Template-literal rendering of a nullable query-parameter string
(url.searchParams.get yields null when the parameter is absent, and a
template literal renders null as the four-letter word). -/
def templateOptStr : Option String → String
  | none => "null"
  | some s => s

/-- A nullable query-parameter string as the JSON value JSON.stringify
produces for it: null stays null, a string stays a string. -/
def jsonOfNullableStr : Option String → Json
  | none => Json.null
  | some s => Json.str s

/-- JSON.stringify drops object fields whose value is undefined; a field
built from a possibly-undefined value therefore contributes either one
field or nothing. -/
def objField (name : String) : Option Json → List (String × Json)
  | none => []
  | some v => [(name, v)]

/-- Whether the first list starts with the second. -/
def listStartsWith : List Char → List Char → Bool
  | _, [] => true
  | [], _ :: _ => false
  | c :: cs, p :: ps => c = p && listStartsWith cs ps

/-- Whether a character list occurs somewhere inside another. -/
def hasSubList (pat : List Char) : List Char → Bool
  | [] => listStartsWith [] pat
  | c :: cs => listStartsWith (c :: cs) pat || hasSubList pat cs

/-- String.prototype.includes, the substring test the client uses to
recognize a transport-level fetch error. -/
def containsSub (s pat : String) : Bool :=
  hasSubList pat.data s.data

/-- Whether a character is whitespace for String.prototype.trim (the
whitespace classes that can occur in this application's inputs). -/
def isJsSpace (c : Char) : Bool :=
  c = ' ' || c = '\t' || c = '\n' || c = '\r' || c = '\x0b' || c = '\x0c'

/-- String.prototype.trim: strip leading and trailing whitespace. -/
def jsTrim (s : String) : String :=
  ⟨((s.data.dropWhile isJsSpace).reverse.dropWhile isJsSpace).reverse⟩

/-! ## The Proxy Function (supabase/functions/youtube-api/index.ts) -/

/-- An incoming request to the Proxy Function, after URL parsing: the HTTP
method, the query parameters the handler reads, and the outcome of
req.json() on the body (error = the body is not valid JSON, carrying the
parse-failure message). -/
structure ProxyRequest where
  method : String
  action : Option String
  videoId : Option String
  commentId : Option String
  body : Except String Json

/-- An outbound fetch the Proxy Function issues to the upstream video API. -/
structure OutboundRequest where
  method : String
  url : String
  headers : List (String × String)
  body : Option Json

/-- What fetch resolved to for an outbound request: the ok flag and the
outcome of response.json() (error = the body is not valid JSON). -/
structure UpstreamResponse where
  ok : Bool
  body : Except String Json

/-- The response the Proxy Function returns to the browser. -/
structure ProxyResponse where
  status : Nat
  body : Option Json
  headers : List (String × String)

/-- Modelled from the spec: the permissive cross-origin headers of the
missing shared module ../_shared/cors.ts, attached to every response. -/
def corsHeaders : List (String × String) :=
  [ ("Access-Control-Allow-Origin", "*")
  , ("Access-Control-Allow-Headers", "authorization, x-client-info, apikey, content-type") ]

/-- Headers of every non-preflight proxy response: the cross-origin headers
plus the JSON content type. -/
def jsonHeaders : List (String × String) :=
  corsHeaders ++ [("Content-Type", "application/json")]

def YOUTUBE_BASE_URL : String := "https://www.googleapis.com/youtube/v3"

/-- The handler's check on Deno.env.get: the guard fires when the variable
is unset or set to the empty string, both falsy. -/
def keyFalsy : Option String → Bool
  | none => true
  | some s => s.isEmpty

/-- Destructuring the parsed request body: a parse failure propagates, and
destructuring a null body throws a TypeError, which the handler's catch
turns into the error envelope like any other throw. -/
def requireBody : Except String Json → Except String Json
  | .error m => .error m
  | .ok .null => .error "TypeError: Cannot destructure property of null"
  | .ok j => .ok j

/-- The message of the error the handler throws on an upstream non-ok
response: data.error?.message when truthy, else the generic fallback. -/
def upstreamErrorMessage (data : Json) : String :=
  match (data.getField "error").bind (fun e => e.getField "message") with
  | some m => if m.jsTruthy then m.jsString else "YouTube API error"
  | none => "YouTube API error"

/-- The switch(action) of the handler: per-action validation and the exact
outbound request each case builds, or the message of the error it throws.
JSON.stringify keeps null-valued fields (the nullable videoId query
parameter) and drops undefined-valued ones (absent body properties). -/
def routeAction (key : String) (req : ProxyRequest) : Except String OutboundRequest :=
  match req.action with
  | some "video-details" =>
    match req.videoId with
    | none => .error "Video ID is required"
    | some v =>
      if v.isEmpty then .error "Video ID is required"
      else .ok { method := "GET"
               , url := YOUTUBE_BASE_URL ++ "/videos?id=" ++ v
                          ++ "&part=snippet,statistics,status&key=" ++ key
               , headers := []
               , body := none }
  | some "comments" =>
    match req.videoId with
    | none => .error "Video ID is required"
    | some v =>
      if v.isEmpty then .error "Video ID is required"
      else .ok { method := "GET"
               , url := YOUTUBE_BASE_URL ++ "/commentThreads?videoId=" ++ v
                          ++ "&part=snippet,replies&key=" ++ key
               , headers := []
               , body := none }
  | some "post-comment" =>
    if req.method != "POST" then .error "POST method required"
    else
      match requireBody req.body with
      | .error m => .error m
      | .ok b =>
        .ok { method := "POST"
            , url := YOUTUBE_BASE_URL ++ "/commentThreads?part=snippet"
            , headers := [ ("Authorization", "Bearer " ++ templateOpt (b.getField "accessToken"))
                         , ("Content-Type", "application/json") ]
            , body := some (.obj [("snippet", .obj
                ([("videoId", jsonOfNullableStr req.videoId)]
                  ++ [("topLevelComment", .obj
                        [("snippet", .obj (objField "textOriginal" (b.getField "text")))])]))]) }
  | some "delete-comment" =>
    if req.method != "DELETE" then .error "DELETE method required"
    else
      match requireBody req.body with
      | .error m => .error m
      | .ok b =>
        .ok { method := "DELETE"
            , url := YOUTUBE_BASE_URL ++ "/comments?id=" ++ templateOptStr req.commentId
            , headers := [ ("Authorization", "Bearer " ++ templateOpt (b.getField "accessToken")) ]
            , body := none }
  | some "update-video" =>
    if req.method != "PUT" then .error "PUT method required"
    else
      match requireBody req.body with
      | .error m => .error m
      | .ok b =>
        .ok { method := "PUT"
            , url := YOUTUBE_BASE_URL ++ "/videos?part=snippet"
            , headers := [ ("Authorization", "Bearer " ++ templateOpt (b.getField "accessToken"))
                         , ("Content-Type", "application/json") ]
            , body := some (.obj
                [ ("id", jsonOfNullableStr req.videoId)
                , ("snippet", .obj
                    (objField "title" (b.getField "title")
                      ++ objField "description" (b.getField "description")
                      ++ [("categoryId", .str "22")])) ]) }
  | _ => .error "Invalid action"

/-- The body of the handler's try block: the API-key guard, the action
switch, the single upstream fetch, response.json(), and the ok check —
yielding the JSON value a success passes through or the message the catch
will wrap, together with the outbound requests actually issued. -/
def handlerCore (apiKey : Option String) (req : ProxyRequest)
    (upstream : OutboundRequest → Except String UpstreamResponse) :
    Except String Json × List OutboundRequest :=
  if keyFalsy apiKey then (.error "YouTube API key not configured", [])
  else
    match routeAction (apiKey.getD "") req with
    | .error m => (.error m, [])
    | .ok call =>
      match upstream call with
      | .error m => (.error m, [call])
      | .ok resp =>
        match resp.body with
        | .error m => (.error m, [call])
        | .ok data =>
          (if resp.ok then .ok data else .error (upstreamErrorMessage data), [call])

/-- The Deno.serve handler: OPTIONS preflight short-circuits with the bare
cross-origin headers; every other request runs the try block, a success
returning the upstream JSON with status 200 and any thrown message
returning status 400 in the one-field error envelope. -/
def handler (apiKey : Option String) (req : ProxyRequest)
    (upstream : OutboundRequest → Except String UpstreamResponse) :
    ProxyResponse × List OutboundRequest :=
  if req.method = "OPTIONS" then
    ({ status := 200, body := none, headers := corsHeaders }, [])
  else
    match handlerCore apiKey req upstream with
    | (.ok data, calls) =>
      ({ status := 200, body := some data, headers := jsonHeaders }, calls)
    | (.error m, calls) =>
      ({ status := 400, body := some (.obj [("error", .str m)]), headers := jsonHeaders }, calls)

/-! ## The browser-side client (src/services/youtube.ts) -/

/-- The URLSearchParams each client call builds: the action tag and, when
the call sets them, the video or comment identifier. -/
structure YtParams where
  action : String
  videoId : Option String := none
  commentId : Option String := none

/-- The RequestInit options a client call passes to fetch: an overriding
method and a JSON body for the mutating calls, nothing for the reads. -/
structure RequestOpts where
  method : Option String := none
  body : Option Json := none

/-- How the fetch to the proxy endpoint concluded: a rejection (transport
failure; isTypeError tells whether the thrown value was a TypeError, and
message its text), or an HTTP response with its ok flag and the outcome of
response.json(). -/
inductive TransportOutcome where
  | reject (isTypeError : Bool) (message : String)
  | response (ok : Bool) (body : Except String Json)

/-- The placeholder top-level video item of the mock fallback, populated for
a (nullable) requested videoId; nowIso is new Date().toISOString(). -/
def mockVideoItem (videoId : Option String) (nowIso : String) : Json :=
  .obj
    [ ("id", jsonOfNullableStr videoId)
    , ("snippet", .obj
        [ ("title", .str "Sample YouTube Video")
        , ("description", .str "This is a sample video description. The actual video details would be fetched from the YouTube API when the Edge Function is properly deployed.")
        , ("thumbnails", .obj
            [("high", .obj
              [("url", .str ("https://img.youtube.com/vi/" ++ templateOptStr videoId
                              ++ "/hqdefault.jpg"))])])
        , ("publishedAt", .str nowIso)
        , ("channelTitle", .str "Sample Channel") ])
    , ("statistics", .obj
        [ ("viewCount", .str "1234567")
        , ("likeCount", .str "12345")
        , ("commentCount", .str "567") ])
    , ("status", .obj [("privacyStatus", .str "public")]) ]

/-- The placeholder comment thread of the mock fallback. -/
def mockCommentItem (nowIso : String) : Json :=
  .obj
    [ ("id", .str "sample-comment-1")
    , ("snippet", .obj
        [ ("topLevelComment", .obj
            [("snippet", .obj
              [ ("textDisplay", .str "This is a sample comment. Real comments would be fetched when the Edge Function is deployed.")
              , ("authorDisplayName", .str "Sample User")
              , ("publishedAt", .str nowIso)
              , ("likeCount", .num 5) ])])
        , ("totalReplyCount", .num 0) ]) ]

/-- getMockData: the locally synthesized placeholder the client returns when
the proxy endpoint is unreachable — a populated video item for
video-details, one sample thread for comments, and an empty items object
for every other action. -/
def getMockData (params : YtParams) (nowIso : String) : Json :=
  if params.action = "video-details" then
    .obj [("items", .arr [mockVideoItem params.videoId nowIso])]
  else if params.action = "comments" then
    .obj [("items", .arr [mockCommentItem nowIso])]
  else
    .obj [("items", .arr [])]

/-- makeYouTubeRequest: fetch the proxy endpoint with the given params and
options.  A rejection that is a TypeError whose message mentions fetch is
taken as the Edge Function being unavailable and answered with mock data;
any other throw propagates.  On an HTTP response, ok passes response.json()
through, and not-ok raises the proxy's error envelope message (or the
generic fallback); errors raised after a response was received are plain
Errors, never TypeErrors, so they are rethrown, not recovered.  The opts
travel to the transport but do not influence the recovery logic, exactly
as in the source. -/
def makeYouTubeRequest (params : YtParams) (_opts : RequestOpts)
    (transport : TransportOutcome) (nowIso : String) : Except String Json :=
  match transport with
  | .reject isTypeErr msg =>
    if isTypeErr && containsSub msg "fetch" then .ok (getMockData params nowIso)
    else .error msg
  | .response ok body =>
    if ok then body
    else
      match body with
      | .error m => .error m
      | .ok Json.null => .error "TypeError: Cannot read properties of null (reading error)"
      | .ok errData =>
        .error (match errData.getField "error" with
                | some e => if e.jsTruthy then e.jsString else "YouTube API request failed"
                | none => "YouTube API request failed")

/-- Property access data.items[0]: indexing undefined throws; an array
yields its head or undefined; a string yields its first character; other
JSON values have no zeroth property. -/
def index0 : Option Json → Except String (Option Json)
  | none => .error "TypeError: Cannot read properties of undefined (reading 0)"
  | some (.arr elems) => .ok elems.head?
  | some (.str s) =>
    .ok (if s.isEmpty then none else (s.data.head?.map (fun c => Json.str (String.singleton c))))
  | some _ => .ok none

/-- getVideoDetails: request the video-details action and return
data.items[0]. -/
def getVideoDetails (videoId : String) (transport : TransportOutcome)
    (nowIso : String) : Except String (Option Json) :=
  match makeYouTubeRequest { action := "video-details", videoId := some videoId } {}
          transport nowIso with
  | .error m => .error m
  | .ok data => index0 (data.getField "items")

/-- getVideoComments: request the comments action and return data.items,
defaulting to the empty array when items is falsy. -/
def getVideoComments (videoId : String) (transport : TransportOutcome)
    (nowIso : String) : Except String Json :=
  match makeYouTubeRequest { action := "comments", videoId := some videoId } {}
          transport nowIso with
  | .error m => .error m
  | .ok data =>
    .ok (match data.getField "items" with
         | some items => if items.jsTruthy then items else .arr []
         | none => .arr [])

/-- postComment: POST the post-comment action with the token and text in
the JSON body. -/
def postComment (videoId text accessToken : String) (transport : TransportOutcome)
    (nowIso : String) : Except String Json :=
  makeYouTubeRequest { action := "post-comment", videoId := some videoId }
    { method := some "POST"
    , body := some (.obj [("accessToken", .str accessToken), ("text", .str text)]) }
    transport nowIso

/-- deleteComment: DELETE the delete-comment action with the token in the
JSON body. -/
def deleteComment (commentId accessToken : String) (transport : TransportOutcome)
    (nowIso : String) : Except String Json :=
  makeYouTubeRequest { action := "delete-comment", commentId := some commentId }
    { method := some "DELETE"
    , body := some (.obj [("accessToken", .str accessToken)]) }
    transport nowIso

/-- updateVideo: PUT the update-video action with the token, title and
description in the JSON body. -/
def updateVideo (videoId title description accessToken : String)
    (transport : TransportOutcome) (nowIso : String) : Except String Json :=
  makeYouTubeRequest { action := "update-video", videoId := some videoId }
    { method := some "PUT"
    , body := some (.obj [ ("accessToken", .str accessToken)
                         , ("title", .str title)
                         , ("description", .str description) ]) }
    transport nowIso

/-! ## The notes panel (src/components/NotesSection.tsx) -/

/-- The authenticated caller as the panels see it; email is nullable. -/
structure User where
  id : String
  email : Option String
deriving DecidableEq

/-- A row of the notes relation as the panel holds it. -/
structure Note where
  id : String
  content : String
  created_at : String
  updated_at : String
deriving DecidableEq

/-- The local state of the notes panel that the mutation handlers touch. -/
structure NotesState where
  notes : List Note
  error : String
  newNote : String
  editingNote : Option String
  editContent : String
  adding : Bool
deriving DecidableEq

/-- handleAddNote: guarded on a non-blank draft and an authenticated user;
the store insert (of the trimmed draft, under the caller's id) either
returns the new row, which is prepended and the draft cleared, or fails,
which only records the message; the adding spinner is cleared either way. -/
def handleAddNote (user : Option User) (store : Except String Note)
    (st : NotesState) : NotesState :=
  if (jsTrim st.newNote).isEmpty || user.isNone then st
  else
    match store with
    | .ok data => { st with notes := data :: st.notes, newNote := "", adding := false }
    | .error msg => { st with error := msg, adding := false }

/-- handleEditNote: guarded on a non-blank edit draft; the store update
either returns the row, which replaces every note of that id and closes the
editor, or fails, which only records the message. -/
def handleEditNote (noteId : String) (store : Except String Note)
    (st : NotesState) : NotesState :=
  if (jsTrim st.editContent).isEmpty then st
  else
    match store with
    | .ok data =>
      { st with notes := st.notes.map (fun note => if note.id = noteId then data else note)
              , editingNote := none, editContent := "" }
    | .error msg => { st with error := msg }

/-- handleDeleteNote: guarded on the confirm dialog; the store delete either
succeeds, filtering the note out, or fails, which only records the
message. -/
def handleDeleteNote (noteId : String) (confirmed : Bool) (store : Except String Unit)
    (st : NotesState) : NotesState :=
  if !confirmed then st
  else
    match store with
    | .ok _ => { st with notes := st.notes.filter (fun note => note.id ≠ noteId) }
    | .error msg => { st with error := msg }

/-! ## The comments panel (src/components/CommentsSection.tsx) -/

/-- The inner snippet of a top-level comment or reply. -/
structure CommentSnippet where
  textDisplay : String
  authorDisplayName : String
  publishedAt : String
  likeCount : Int
deriving DecidableEq

/-- A reply comment. -/
structure Reply where
  id : String
  snippet : CommentSnippet
deriving DecidableEq

/-- A comment thread as the panel holds it (the Comment interface of the
client, with the nested snippet wrappers flattened into named fields). -/
structure Comment where
  id : String
  topLevelComment : CommentSnippet
  totalReplyCount : Int
  replies : Option (List Reply)
deriving DecidableEq

/-- The local state of the comments panel that the mutation handlers
touch. -/
structure CommentsState where
  comments : List Comment
  error : String
  newComment : String
  posting : Bool
deriving DecidableEq

/-- A call to the browser-side YouTube client that a panel handler could
issue; the comments panel's mutation handlers issue none. -/
inductive ServiceCall where
  | post (videoId text accessToken : String)
  | delete (commentId accessToken : String)
deriving DecidableEq

/-- user.email with the falsy fallback to You. -/
def userAuthorName (u : User) : String :=
  match u.email with
  | some e => if e.isEmpty then "You" else e
  | none => "You"

/-- handlePostComment: guarded on a non-blank draft and an authenticated
user; it logs the intent and locally synthesizes the comment — a client
identifier from Date.now(), the untrimmed draft text, zero likes and zero
replies — prepending it and clearing the draft, calling no upstream client
function at all. -/
def handlePostComment (user : Option User) (now : Nat) (nowIso : String)
    (st : CommentsState) : CommentsState × List ServiceCall :=
  if (jsTrim st.newComment).isEmpty || user.isNone then (st, [])
  else
    let author := match user with
      | some u => userAuthorName u
      | none => "You"
    let mockComment : Comment :=
      { id := "mock-" ++ toString now
      , topLevelComment :=
          { textDisplay := st.newComment
          , authorDisplayName := author
          , publishedAt := nowIso
          , likeCount := 0 }
      , totalReplyCount := 0
      , replies := none }
    ({ st with comments := mockComment :: st.comments, newComment := "", posting := false }, [])

/-- handleDeleteComment: logs the intent and removes the comments of that
id from the local sequence, calling no upstream client function and
touching no error state. -/
def handleDeleteComment (commentId : String) (st : CommentsState) :
    CommentsState × List ServiceCall :=
  ({ st with comments := st.comments.filter (fun c => c.id ≠ commentId) }, [])

/-! ## Derived tables and concrete fixtures -/

/-- The HTTP method a handler case insists on, read off the method guards
of the switch: only the three write actions carry one. -/
def requiredMethod : String → Option String
  | "post-comment" => some "POST"
  | "delete-comment" => some "DELETE"
  | "update-video" => some "PUT"
  | _ => none

/-- The five actions the handler's switch recognizes. -/
def proxyActions : List String :=
  ["video-details", "comments", "post-comment", "delete-comment", "update-video"]

/-- The mutating proxy actions: those whose handler case guards the HTTP
method. -/
def mutatingProxyActions : List String :=
  proxyActions.filter (fun a => (requiredMethod a).isSome)

/-- A post-comment request with the required method and a parsable body but
no videoId query parameter. -/
def reqPostNoVideo : ProxyRequest :=
  { method := "POST", action := some "post-comment", videoId := none, commentId := none
  , body := .ok (.obj [("accessToken", .str "tok"), ("text", .str "hi")]) }

/-- A delete-comment request with the required method and a parsable body
but no commentId query parameter. -/
def reqDeleteNoComment : ProxyRequest :=
  { method := "DELETE", action := some "delete-comment", videoId := none, commentId := none
  , body := .ok (.obj [("accessToken", .str "tok")]) }

/-- An update-video request with the required method and a parsable body
but no videoId query parameter. -/
def reqUpdateNoVideo : ProxyRequest :=
  { method := "PUT", action := some "update-video", videoId := none, commentId := none
  , body := .ok (.obj [("accessToken", .str "tok"), ("title", .str "T"), ("description", .str "D")]) }

/-- A plain video-details request. -/
def reqVideoDetails : ProxyRequest :=
  { method := "GET", action := some "video-details", videoId := some "abc123", commentId := none
  , body := .error "Unexpected end of JSON input" }

/-- An upstream that answers every request ok with an empty JSON object. -/
def okUpstream : OutboundRequest → Except String UpstreamResponse :=
  fun _ => .ok { ok := true, body := .ok (.obj []) }

/-! ## Shared lemmas about the Proxy Function -/

/-- A non-preflight handler run issues exactly the calls of its try
block. -/
theorem handler_snd (apiKey : Option String) (req : ProxyRequest)
    (upstream : OutboundRequest → Except String UpstreamResponse)
    (hm : req.method ≠ "OPTIONS") :
    (handler apiKey req upstream).2 = (handlerCore apiKey req upstream).2 := by
  unfold handler
  rw [if_neg hm]
  rcases h : handlerCore apiKey req upstream with ⟨res, calls⟩
  cases res <;> simp

/-- With a configured key, the try block issues exactly one upstream call
when routing succeeds and none when routing throws. -/
theorem handlerCore_snd (apiKey : Option String) (req : ProxyRequest)
    (upstream : OutboundRequest → Except String UpstreamResponse)
    (hkey : keyFalsy apiKey = false) :
    (handlerCore apiKey req upstream).2 =
      match routeAction (apiKey.getD "") req with
      | .error _ => []
      | .ok call => [call] := by
  unfold handlerCore
  rw [if_neg (by simp [hkey])]
  cases hr : routeAction (apiKey.getD "") req with
  | error m => simp [hr]
  | ok call =>
    cases hu : upstream call with
    | error m => simp [hr, hu]
    | ok resp =>
      cases hb : resp.body with
      | error m => simp [hr, hu, hb]
      | ok data => cases h : resp.ok <;> simp [hr, hu, hb, h]

/-- Inversion of a successful try block: the data it passes through is the
parsed body of an ok upstream response to the single call it issued. -/
theorem handlerCore_ok_inv (apiKey : Option String) (req : ProxyRequest)
    (upstream : OutboundRequest → Except String UpstreamResponse)
    (data : Json) (calls : List OutboundRequest)
    (h : handlerCore apiKey req upstream = (.ok data, calls)) :
    ∃ call resp, calls = [call] ∧ upstream call = .ok resp ∧
      resp.ok = true ∧ resp.body = .ok data := by
  unfold handlerCore at h
  by_cases hk : keyFalsy apiKey = true
  · rw [if_pos hk] at h
    simp at h
  · rw [if_neg hk] at h
    cases hr : routeAction (apiKey.getD "") req with
    | error m => simp [hr] at h
    | ok call =>
      simp only [hr] at h
      cases hu : upstream call with
      | error m => simp [hu] at h
      | ok resp =>
        simp only [hu] at h
        cases hb : resp.body with
        | error m => simp [hb] at h
        | ok d =>
          simp only [hb] at h
          by_cases hok : resp.ok = true
          · rw [if_pos hok] at h
            refine ⟨call, resp, ?_, ?_, hok, ?_⟩ <;> simp_all
          · rw [if_neg hok] at h
            simp at h

/-- The three write cases of the switch never read the API key: routing is
the same under any two keys. -/
theorem routeAction_key_indep (key1 key2 : String) (req : ProxyRequest)
    (h : req.action = some "post-comment" ∨ req.action = some "delete-comment"
        ∨ req.action = some "update-video") :
    routeAction key1 req = routeAction key2 req := by
  rcases h with h | h | h <;> simp [routeAction, h]

/-! ## Claim C1 -/

/-- C1, counterexample: a mutating client call (postComment) whose fetch is
rejected with the transport-level TypeError does not propagate the failure:
it resolves with the locally synthesized fallback, the empty items
object. -/
theorem C1_counterexample :
    postComment "vid" "hello" "tok" (.reject true "Failed to fetch") "2025-01-01T00:00:00.000Z"
      = .ok (Json.obj [("items", Json.arr [])]) := by
  rfl

/-- C1 (amended): the transport-failure fallback is not limited to the
read-only actions.  When the rejection is a TypeError whose message
mentions fetch, every mutating client call also recovers locally and
resolves with the mock default, an empty items object; a rejection of any
other shape propagates for all of them. -/
theorem C1_amended (videoId text accessToken commentId title description nowIso msg : String)
    (isTypeErr : Bool) :
    ((isTypeErr && containsSub msg "fetch") = true →
      postComment videoId text accessToken (.reject isTypeErr msg) nowIso
          = .ok (Json.obj [("items", Json.arr [])]) ∧
      deleteComment commentId accessToken (.reject isTypeErr msg) nowIso
          = .ok (Json.obj [("items", Json.arr [])]) ∧
      updateVideo videoId title description accessToken (.reject isTypeErr msg) nowIso
          = .ok (Json.obj [("items", Json.arr [])])) ∧
    ((isTypeErr && containsSub msg "fetch") = false →
      postComment videoId text accessToken (.reject isTypeErr msg) nowIso = .error msg ∧
      deleteComment commentId accessToken (.reject isTypeErr msg) nowIso = .error msg ∧
      updateVideo videoId title description accessToken (.reject isTypeErr msg) nowIso
          = .error msg) := by
  constructor <;> intro h <;>
    simp [postComment, deleteComment, updateVideo, makeYouTubeRequest, getMockData, h]

/-- C1 witness: the fallback branch at a concrete TypeError rejection and
the propagation branch at a concrete non-TypeError rejection. -/
theorem C1_witness :
    postComment "vid" "hi" "tok" (.reject true "Failed to fetch") "t0"
        = .ok (Json.obj [("items", Json.arr [])]) ∧
    updateVideo "vid" "T" "D" "tok" (.reject false "connection reset") "t0"
        = .error "connection reset" := by
  constructor
  · exact ((C1_amended "vid" "hi" "tok" "c" "T" "D" "t0" "Failed to fetch" true).1
      (by decide)).1
  · exact ((C1_amended "vid" "hi" "tok" "c" "T" "D" "t0" "connection reset" false).2
      (by decide)).2.2

/-! ## Claim C2 -/

/-- C2, counterexample: a post-comment request with method POST, a parsable
body and no videoId query parameter is answered 200 (not a 400 naming the
missing field) and one outbound upstream call is issued. -/
theorem C2_counterexample :
    (handler (some "KEY") reqPostNoVideo okUpstream).1.status = 200 ∧
    (handler (some "KEY") reqPostNoVideo okUpstream).2.length = 1 := by
  exact ⟨rfl, rfl⟩

/-- C2 (amended): the mutating actions perform no missing-parameter
validation.  With the required method and a parsable body, a missing
videoId (post-comment, update-video) or commentId (delete-comment) flows
straight into the single outbound upstream call — serialized as JSON null
inside the request bodies, and rendered as the literal word null in the
delete URL — instead of yielding a named-field 400 with no outbound
call. -/
theorem C2_amended (key tok txt title description : String)
    (hkey : key.isEmpty = false)
    (upstream : OutboundRequest → Except String UpstreamResponse) :
    (handler (some key)
        { method := "POST", action := some "post-comment", videoId := none, commentId := none
        , body := .ok (.obj [("accessToken", .str tok), ("text", .str txt)]) } upstream).2
      = [{ method := "POST"
         , url := YOUTUBE_BASE_URL ++ "/commentThreads?part=snippet"
         , headers := [ ("Authorization", "Bearer " ++ tok)
                      , ("Content-Type", "application/json") ]
         , body := some (.obj [("snippet", .obj
             [ ("videoId", Json.null)
             , ("topLevelComment", .obj [("snippet", .obj [("textOriginal", .str txt)])]) ])]) }] ∧
    (handler (some key)
        { method := "DELETE", action := some "delete-comment", videoId := none, commentId := none
        , body := .ok (.obj [("accessToken", .str tok)]) } upstream).2
      = [{ method := "DELETE"
         , url := YOUTUBE_BASE_URL ++ "/comments?id=null"
         , headers := [("Authorization", "Bearer " ++ tok)]
         , body := none }] ∧
    (handler (some key)
        { method := "PUT", action := some "update-video", videoId := none, commentId := none
        , body := .ok (.obj [ ("accessToken", .str tok), ("title", .str title)
                            , ("description", .str description) ]) } upstream).2
      = [{ method := "PUT"
         , url := YOUTUBE_BASE_URL ++ "/videos?part=snippet"
         , headers := [ ("Authorization", "Bearer " ++ tok)
                      , ("Content-Type", "application/json") ]
         , body := some (.obj
             [ ("id", Json.null)
             , ("snippet", .obj [ ("title", .str title), ("description", .str description)
                                , ("categoryId", .str "22") ]) ]) }] := by
  refine ⟨?_, ?_, ?_⟩ <;>
  · rw [handler_snd _ _ _ (by simp), handlerCore_snd _ _ _ (by simp [keyFalsy, hkey])]
    simp [routeAction, requireBody, templateOpt, templateOptStr, Json.jsString,
      Json.getField, jsonOfNullableStr, objField] <;> decide

/-- C2 witness: the amended behavior at concrete inputs. -/
theorem C2_witness :
    (handler (some "KEY") reqPostNoVideo okUpstream).2
      = [{ method := "POST"
         , url := YOUTUBE_BASE_URL ++ "/commentThreads?part=snippet"
         , headers := [ ("Authorization", "Bearer " ++ "tok")
                      , ("Content-Type", "application/json") ]
         , body := some (.obj [("snippet", .obj
             [ ("videoId", Json.null)
             , ("topLevelComment", .obj [("snippet", .obj [("textOriginal", .str "hi")])]) ])]) }] := by
  exact (C2_amended "KEY" "tok" "hi" "T" "D" (by decide) okUpstream).1

/-! ## Claim C5 -/

/-- C5: with no YouTube API key in the environment, every non-preflight
request — whatever its action — is answered 400 with the configuration
message and no outbound call is attempted, while an OPTIONS preflight still
returns the empty success with the cross-origin headers. -/
theorem C5_confirmed (req : ProxyRequest)
    (upstream : OutboundRequest → Except String UpstreamResponse) :
    (req.method ≠ "OPTIONS" →
      (handler none req upstream).1.status = 400 ∧
      (handler none req upstream).1.body
          = some (.obj [("error", .str "YouTube API key not configured")]) ∧
      (handler none req upstream).2 = []) ∧
    (req.method = "OPTIONS" →
      handler none req upstream
        = ({ status := 200, body := none, headers := corsHeaders }, [])) := by
  constructor
  · intro hm
    refine ⟨?_, ?_, ?_⟩ <;> simp [handler, hm, handlerCore, keyFalsy]
  · intro hm
    simp [handler, hm]

/-- C5 witness: a keyless GET for video-details is refused with the
configuration message and no call; a keyless OPTIONS still succeeds. -/
theorem C5_witness :
    ((handler none reqVideoDetails okUpstream).1.status = 400 ∧
      (handler none reqVideoDetails okUpstream).1.body
          = some (.obj [("error", .str "YouTube API key not configured")]) ∧
      (handler none reqVideoDetails okUpstream).2 = []) ∧
    handler none { reqVideoDetails with method := "OPTIONS" } okUpstream
        = ({ status := 200, body := none, headers := corsHeaders }, []) := by
  exact ⟨(C5_confirmed reqVideoDetails okUpstream).1 (by decide),
         (C5_confirmed { reqVideoDetails with method := "OPTIONS" } okUpstream).2 rfl⟩

/-! ## Claim C3 -/

/-- C3: the handler is total on non-preflight requests and its response is
always one of two shapes — a 400 whose JSON body is exactly the one-field
error envelope, or a 200 whose JSON body is, unmodified, the parsed body of
the ok upstream response to the single call it issued. -/
theorem C3_confirmed (apiKey : Option String) (req : ProxyRequest)
    (upstream : OutboundRequest → Except String UpstreamResponse)
    (hm : req.method ≠ "OPTIONS") :
    (∃ m, (handler apiKey req upstream).1.status = 400 ∧
          (handler apiKey req upstream).1.body = some (.obj [("error", .str m)])) ∨
    (∃ call resp data,
        (handler apiKey req upstream).2 = [call] ∧ upstream call = .ok resp ∧
        resp.ok = true ∧ resp.body = .ok data ∧
        (handler apiKey req upstream).1.status = 200 ∧
        (handler apiKey req upstream).1.body = some data) := by
  rcases hc : handlerCore apiKey req upstream with ⟨res, calls⟩
  cases res with
  | error m =>
    left
    exact ⟨m, by simp [handler, hm, hc], by simp [handler, hm, hc]⟩
  | ok data =>
    right
    obtain ⟨call, resp, hcalls, hu, hok, hb⟩ := handlerCore_ok_inv _ _ _ _ _ hc
    exact ⟨call, resp, data, by simp [handler, hm, hc, hcalls], hu, hok, hb,
           by simp [handler, hm, hc], by simp [handler, hm, hc]⟩

/-- C3 witness: the dichotomy at a concrete keyed post-comment request
against the concrete ok upstream. -/
theorem C3_witness :
    (∃ m, (handler (some "KEY") reqPostNoVideo okUpstream).1.status = 400 ∧
          (handler (some "KEY") reqPostNoVideo okUpstream).1.body
              = some (.obj [("error", .str m)])) ∨
    (∃ call resp data,
        (handler (some "KEY") reqPostNoVideo okUpstream).2 = [call] ∧
        okUpstream call = .ok resp ∧ resp.ok = true ∧ resp.body = .ok data ∧
        (handler (some "KEY") reqPostNoVideo okUpstream).1.status = 200 ∧
        (handler (some "KEY") reqPostNoVideo okUpstream).1.body = some data) := by
  exact C3_confirmed (some "KEY") reqPostNoVideo okUpstream (by decide)

/-! ## Claim C4 -/

/-- C4, counterexample: the handler guards the HTTP method for exactly
three actions, not four — the program has three mutating proxy actions. -/
theorem C4_counterexample :
    mutatingProxyActions = ["post-comment", "delete-comment", "update-video"] ∧
    mutatingProxyActions.length ≠ 4 := by
  decide

/-- C4 (amended): for all three mutating proxy actions, a keyed
non-preflight request with the wrong HTTP method is answered 400 with the
error field naming the required method, and no outbound call is issued. -/
theorem C4_amended (a m key : String) (req : ProxyRequest)
    (upstream : OutboundRequest → Except String UpstreamResponse)
    (ha : requiredMethod a = some m) (hact : req.action = some a)
    (hm : req.method ≠ m) (hpre : req.method ≠ "OPTIONS")
    (hkey : key.isEmpty = false) :
    (handler (some key) req upstream).1.status = 400 ∧
    (handler (some key) req upstream).1.body
        = some (.obj [("error", .str (m ++ " method required"))]) ∧
    (handler (some key) req upstream).2 = [] := by
  have hroute : routeAction key req = .error (m ++ " method required") := by
    unfold requiredMethod at ha
    split at ha <;> simp_all <;> subst ha <;> simp [routeAction, hact, hm]
  refine ⟨?_, ?_, ?_⟩ <;>
    simp [handler, hpre, handlerCore, keyFalsy, hkey, hroute]

/-- C4 witness: a GET aimed at each of the three mutating actions is
refused with the method-required message and no outbound call. -/
theorem C4_witness :
    ((handler (some "KEY") { reqPostNoVideo with method := "GET" } okUpstream).1.status = 400 ∧
     (handler (some "KEY") { reqPostNoVideo with method := "GET" } okUpstream).1.body
        = some (.obj [("error", .str ("POST" ++ " method required"))]) ∧
     (handler (some "KEY") { reqPostNoVideo with method := "GET" } okUpstream).2 = []) ∧
    ((handler (some "KEY") { reqDeleteNoComment with method := "GET" } okUpstream).1.body
        = some (.obj [("error", .str ("DELETE" ++ " method required"))])) ∧
    ((handler (some "KEY") { reqUpdateNoVideo with method := "GET" } okUpstream).1.body
        = some (.obj [("error", .str ("PUT" ++ " method required"))])) := by
  refine ⟨C4_amended "post-comment" "POST" "KEY" _ okUpstream rfl rfl
      (by decide) (by decide) (by decide), ?_, ?_⟩
  · exact (C4_amended "delete-comment" "DELETE" "KEY" _ okUpstream rfl rfl
      (by decide) (by decide) (by decide)).2.1
  · exact (C4_amended "update-video" "PUT" "KEY" _ okUpstream rfl rfl
      (by decide) (by decide) (by decide)).2.1

/-! ## Claim C6 -/

/-- C6: notes-panel mutations are store-confirmed.  A successful add
prepends the store's returned row (clearing the draft and the spinner); a
successful edit replaces every note of that id by the returned row and
closes the editor; a successful delete filters the id out; and on a store
error the sequence is left unchanged with only the error string (and the
transient spinner) touched. -/
theorem C6_confirmed (st : NotesState) (u : User) (noteId : String) (row : Note)
    (msg : String)
    (hadd : (jsTrim st.newNote).isEmpty = false)
    (hedit : (jsTrim st.editContent).isEmpty = false) :
    (handleAddNote (some u) (.ok row) st
        = { st with notes := row :: st.notes, newNote := "", adding := false } ∧
     handleAddNote (some u) (.error msg) st = { st with error := msg, adding := false }) ∧
    (handleEditNote noteId (.ok row) st
        = { st with notes := st.notes.map (fun note => if note.id = noteId then row else note)
                  , editingNote := none, editContent := "" } ∧
     handleEditNote noteId (.error msg) st = { st with error := msg }) ∧
    (handleDeleteNote noteId true (.ok ()) st
        = { st with notes := st.notes.filter (fun note => note.id ≠ noteId) } ∧
     handleDeleteNote noteId true (.error msg) st = { st with error := msg }) := by
  refine ⟨⟨?_, ?_⟩, ⟨?_, ?_⟩, ⟨?_, ?_⟩⟩ <;>
    simp [handleAddNote, handleEditNote, handleDeleteNote, hadd, hedit]

/-- C6 witness: the six equations at a concrete panel state. -/
theorem C6_witness :
    (handleAddNote (some { id := "u1", email := some "me@example.com" })
        (.ok { id := "n2", content := "improve pacing", created_at := "t1", updated_at := "t1" })
        { notes := [{ id := "n1", content := "old", created_at := "t0", updated_at := "t0" }]
        , error := "", newNote := "improve pacing", editingNote := none
        , editContent := "tighten the intro", adding := true }
      = { notes := [ { id := "n2", content := "improve pacing", created_at := "t1", updated_at := "t1" }
                   , { id := "n1", content := "old", created_at := "t0", updated_at := "t0" } ]
        , error := "", newNote := "", editingNote := none
        , editContent := "tighten the intro", adding := false }) ∧
    (handleDeleteNote "n1" true (.error "row level security")
        { notes := [{ id := "n1", content := "old", created_at := "t0", updated_at := "t0" }]
        , error := "", newNote := "improve pacing", editingNote := none
        , editContent := "tighten the intro", adding := false }
      = { notes := [{ id := "n1", content := "old", created_at := "t0", updated_at := "t0" }]
        , error := "row level security", newNote := "improve pacing", editingNote := none
        , editContent := "tighten the intro", adding := false }) := by
  constructor
  · exact ((C6_confirmed
      { notes := [{ id := "n1", content := "old", created_at := "t0", updated_at := "t0" }]
      , error := "", newNote := "improve pacing", editingNote := none
      , editContent := "tighten the intro", adding := true }
      { id := "u1", email := some "me@example.com" } "n1"
      { id := "n2", content := "improve pacing", created_at := "t1", updated_at := "t1" }
      "row level security" (by decide) (by decide)).1).1
  · exact ((C6_confirmed
      { notes := [{ id := "n1", content := "old", created_at := "t0", updated_at := "t0" }]
      , error := "", newNote := "improve pacing", editingNote := none
      , editContent := "tighten the intro", adding := false }
      { id := "u1", email := some "me@example.com" } "n1"
      { id := "n2", content := "improve pacing", created_at := "t1", updated_at := "t1" }
      "row level security" (by decide) (by decide)).2).2.2

/-! ## Claim C7 -/

/-- C7: with a non-blank draft and an authenticated user, the comments
panel's post handler prepends a synthetic comment — identifier prefixed
mock-, the given (untrimmed) text, zero likes, zero replies — and issues no
call to the upstream client; the delete handler filters exactly the given
identifier out, also with no call and with the error state untouched. -/
theorem C7_confirmed (st : CommentsState) (u : User) (now : Nat) (nowIso cid : String)
    (hne : (jsTrim st.newComment).isEmpty = false) :
    handlePostComment (some u) now nowIso st
      = ({ st with
            comments :=
              { id := "mock-" ++ toString now
              , topLevelComment :=
                  { textDisplay := st.newComment
                  , authorDisplayName := userAuthorName u
                  , publishedAt := nowIso
                  , likeCount := 0 }
              , totalReplyCount := 0
              , replies := none } :: st.comments
          , newComment := ""
          , posting := false }, []) ∧
    handleDeleteComment cid st
      = ({ st with comments := st.comments.filter (fun c => c.id ≠ cid) }, []) ∧
    (handleDeleteComment cid st).1.error = st.error := by
  refine ⟨?_, ?_, ?_⟩ <;> simp [handlePostComment, handleDeleteComment, hne]

/-- C7 witness: posting at a concrete panel state and deleting the
synthetic comment again. -/
theorem C7_witness :
    handlePostComment (some { id := "u1", email := some "me@example.com" }) 7 "t1"
        { comments := [], error := "", newComment := "nice video!", posting := true }
      = ({ comments :=
            [ { id := "mock-" ++ toString 7
              , topLevelComment :=
                  { textDisplay := "nice video!"
                  , authorDisplayName := userAuthorName ({ id := "u1", email := some "me@example.com" })
                  , publishedAt := "t1"
                  , likeCount := 0 }
              , totalReplyCount := 0
              , replies := none } ]
         , error := "", newComment := "", posting := false }, []) := by
  exact (C7_confirmed { comments := [], error := "", newComment := "nice video!", posting := true }
    { id := "u1", email := some "me@example.com" } 7 "t1" "c9" (by decide)).1

/-! ## Claim C8 -/

/-- C8: a recognized transport failure on a video-details call resolves to
the fully populated placeholder item: its id is the requested videoId, its
privacy classification is public, and every snippet, statistics and status
field is present. -/
theorem C8_confirmed (videoId msg nowIso : String)
    (htype : containsSub msg "fetch" = true) :
    getVideoDetails videoId (.reject true msg) nowIso
        = .ok (some (mockVideoItem (some videoId) nowIso)) ∧
    (mockVideoItem (some videoId) nowIso).getField "id" = some (.str videoId) ∧
    ((mockVideoItem (some videoId) nowIso).getField "status").bind
        (fun s => s.getField "privacyStatus") = some (.str "public") ∧
    ((((mockVideoItem (some videoId) nowIso).getField "snippet").bind
        (fun s => s.getField "title")).isSome = true ∧
     (((mockVideoItem (some videoId) nowIso).getField "snippet").bind
        (fun s => s.getField "description")).isSome = true ∧
     (((mockVideoItem (some videoId) nowIso).getField "snippet").bind
        (fun s => s.getField "thumbnails")).isSome = true ∧
     (((mockVideoItem (some videoId) nowIso).getField "snippet").bind
        (fun s => s.getField "publishedAt")).isSome = true ∧
     (((mockVideoItem (some videoId) nowIso).getField "snippet").bind
        (fun s => s.getField "channelTitle")).isSome = true) ∧
    ((((mockVideoItem (some videoId) nowIso).getField "statistics").bind
        (fun s => s.getField "viewCount")).isSome = true ∧
     (((mockVideoItem (some videoId) nowIso).getField "statistics").bind
        (fun s => s.getField "likeCount")).isSome = true ∧
     (((mockVideoItem (some videoId) nowIso).getField "statistics").bind
        (fun s => s.getField "commentCount")).isSome = true) := by
  refine ⟨?_, ?_, ?_, ⟨?_, ?_, ?_, ?_, ?_⟩, ⟨?_, ?_, ?_⟩⟩ <;>
    simp [getVideoDetails, makeYouTubeRequest, htype, getMockData, index0,
      mockVideoItem, Json.getField, jsonOfNullableStr]

/-- C8 witness: the placeholder at a concrete videoId and the canonical
transport-failure message. -/
theorem C8_witness :
    getVideoDetails "abc123" (.reject true "Failed to fetch") "t0"
        = .ok (some (mockVideoItem (some "abc123") "t0")) ∧
    (mockVideoItem (some "abc123") "t0").getField "id" = some (.str "abc123") := by
  have h := C8_confirmed "abc123" "Failed to fetch" "t0" (by decide)
  exact ⟨h.1, h.2.1⟩

/-! ## Claim C9 -/

/-- C9: getVideoDetails takes the first element of items with no emptiness
check — on any successful response whose items list is empty it resolves to
the absent value, the reachable none of the total embedding. -/
theorem C9_confirmed (videoId nowIso : String) (data : Json)
    (hitems : data.getField "items" = some (.arr [])) :
    getVideoDetails videoId (.response true (.ok data)) nowIso = .ok none := by
  simp [getVideoDetails, makeYouTubeRequest, hitems]
  rfl

/-- C9 witness: an upstream success for an unknown videoId with an empty
items list makes the none branch reachable. -/
theorem C9_witness :
    getVideoDetails "unknown-id" (.response true (.ok (.obj [("items", .arr [])]))) "t0"
      = .ok none := by
  exact C9_confirmed "unknown-id" "t0" (.obj [("items", .arr [])]) rfl

/-! ## Claim C10 -/

/-- C10: the server-held key reaches the upstream exactly through the read
actions.  Two handler runs differing solely in the (configured) key value
are identical for the mutating actions; for the read actions the single
outbound URL carries the key (as a suffix of the URL string); and for a
mutating action run with its required method and a body carrying an
accessToken string, the single outbound call bears that token as a Bearer
authorization header. -/
theorem C10_confirmed (k1 k2 : String) (req : ProxyRequest)
    (upstream : OutboundRequest → Except String UpstreamResponse)
    (h1 : k1.isEmpty = false) (h2 : k2.isEmpty = false) :
    ((req.action = some "post-comment" ∨ req.action = some "delete-comment"
        ∨ req.action = some "update-video") →
      handler (some k1) req upstream = handler (some k2) req upstream) ∧
    (∀ v, req.videoId = some v → v.isEmpty = false → req.method ≠ "OPTIONS" →
      (req.action = some "video-details" ∨ req.action = some "comments") →
      ∃ p call, (handler (some k1) req upstream).2 = [call] ∧ call.url = p ++ k1) ∧
    (∀ a m b tok, requiredMethod a = some m → req.action = some a → req.method = m →
      req.method ≠ "OPTIONS" → req.body = .ok b →
      b.getField "accessToken" = some (.str tok) →
      ∃ call, (handler (some k1) req upstream).2 = [call] ∧
        ("Authorization", "Bearer " ++ tok) ∈ call.headers) := by
  refine ⟨?_, ?_, ?_⟩
  · intro h
    unfold handler
    by_cases hm : req.method = "OPTIONS"
    · rw [if_pos hm, if_pos hm]
    · rw [if_neg hm, if_neg hm]
      have hcore : handlerCore (some k1) req upstream = handlerCore (some k2) req upstream := by
        unfold handlerCore
        rw [if_neg (by simp [keyFalsy, h1]), if_neg (by simp [keyFalsy, h2]),
          routeAction_key_indep ((some k1).getD "") ((some k2).getD "") req h]
      rw [hcore]
  · intro v hv hvne hm hact
    rw [handler_snd _ _ _ hm, handlerCore_snd _ _ _ (by simp [keyFalsy, h1])]
    rcases hact with h | h
    · exact ⟨YOUTUBE_BASE_URL ++ "/videos?id=" ++ v ++ "&part=snippet,statistics,status&key=",
        { method := "GET"
        , url := YOUTUBE_BASE_URL ++ "/videos?id=" ++ v
                   ++ "&part=snippet,statistics,status&key=" ++ k1
        , headers := [], body := none },
        by simp [routeAction, h, hv, hvne], rfl⟩
    · exact ⟨YOUTUBE_BASE_URL ++ "/commentThreads?videoId=" ++ v ++ "&part=snippet,replies&key=",
        { method := "GET"
        , url := YOUTUBE_BASE_URL ++ "/commentThreads?videoId=" ++ v
                   ++ "&part=snippet,replies&key=" ++ k1
        , headers := [], body := none },
        by simp [routeAction, h, hv, hvne], rfl⟩
  · intro a m b tok ha hact hmeq hm hbody hacc
    obtain ⟨fields, rfl⟩ : ∃ fields, b = .obj fields := by
      cases b
      case obj fields => exact ⟨fields, rfl⟩
      all_goals simp [Json.getField] at hacc
    rw [handler_snd _ _ _ hm, handlerCore_snd _ _ _ (by simp [keyFalsy, h1])]
    unfold requiredMethod at ha
    split at ha <;> simp_all <;> subst ha <;>
      simp [routeAction, hact, hmeq, hbody, requireBody, templateOpt, hacc, Json.jsString]

/-- C10 witness: two keyed runs on the same post-comment request are
identical. -/
theorem C10_witness :
    handler (some "K1") reqPostNoVideo okUpstream
      = handler (some "K2") reqPostNoVideo okUpstream := by
  exact (C10_confirmed "K1" "K2" reqPostNoVideo okUpstream (by decide) (by decide)).1
    (Or.inl rfl)

end YtDash
